import Mathlib

/-!
# Verification of the daygent reconciliation and backfill engine

Shallow embedding of `src/update_fronttest.py` and `src/import_from_json.py`.

Modelling conventions:
* A timestamp is an absolute UTC instant, embedded as integer seconds since
  the epoch (`Int`).  The spec's data model fixes timestamps as "absolute
  instant, UTC, exact to the second".  Timezone localisation/conversion in the
  source (`tz_localize` / `tz_convert` / `astimezone`) does not move the
  instant, so it is the identity in this embedding.
* Prices are rationals (`ℚ`); the source's Python floats carry no float
  semantics that any claim depends on.
* Each per-(symbol, timeframe) SQL table has primary key `(symbol, timestamp)`
  (spec §3, §6), so its state is embedded as a finite-support map from keys to
  rows, represented as a function `String × Int → Option StoredRow`.
* Fallible external round trips (the yfinance provider) are embedded as an
  `Except Unit` input: `.error ()` stands for a raised exception, `.ok rows`
  for the rows of the returned frame.  The Python catch-and-return-`None` /
  empty-frame checks become total pattern matches.
-/

namespace Daygent

/-! ## Configuration (src/update_fronttest.py lines 21-36) -/

def SCHEMA_NAME : String := "fronttest"

def SYMBOLS : List String := ["es", "eurusd", "spy"]

def TIMEFRAMES : List String := ["1m", "5m", "15m", "30m", "1h", "1d"]

def CANDLE_MATCH_THRESHOLDS : List (String × ℚ) :=
  [("es", 1/4), ("eurusd", 1/2000), ("spy", 1/10)]

/-- Lookup `CANDLE_MATCH_THRESHOLDS.get(sym, 0.01)` (src/update_fronttest.py line 382). -/
def candleMatchThreshold (symbol : String) : ℚ :=
  (CANDLE_MATCH_THRESHOLDS.lookup symbol).getD (1/100)

/-! ## Helper functions (src/update_fronttest.py lines 41-64) -/

/-- Source function `compute_candle_color` (src/update_fronttest.py lines 41-47). -/
def compute_candle_color (o c : ℚ) : String :=
  if c > o then "green"
  else if c < o then "red"
  else "doji"

/-- Source function `is_close_enough` (src/update_fronttest.py lines 49-50). -/
def is_close_enough (val1 val2 threshold : ℚ) : Bool :=
  decide (|val1 - val2| ≤ threshold)

/-- Source function `map_tf_to_yf_interval` (src/update_fronttest.py lines 52-57). -/
def map_tf_to_yf_interval (tf : String) : String :=
  if tf = "1h" then "60m" else tf

/-- Midnight (00:00:00 UTC) of the UTC calendar day containing the instant `t`:
the source rebuilds `datetime(orig_dt.year, orig_dt.month, orig_dt.day, ...)`
from the components of a UTC datetime, which over epoch seconds is
`t - t % 86400` (on `Int`, `%` is the Euclidean remainder, always in
`[0, 86400)`). -/
def dateMidnightUTC (t : Int) : Int := t - t % 86400

/-- Source function `adjust_daily_timestamp` (src/update_fronttest.py lines 59-64): daily bars
are re-anchored on the same UTC calendar day, at 14:30:00 for `spy` and at
00:00:00 for every other symbol. -/
def adjust_daily_timestamp (symbol : String) (orig_dt : Int) : Int :=
  if symbol = "spy" then dateMidnightUTC orig_dt + (14 * 3600 + 30 * 60)
  else dateMidnightUTC orig_dt

/-- The `(eurusd, 5m)` clock-offset correction: `last_dt + timedelta(hours=5)`
(src/update_fronttest.py lines 104-105 and 191-192). -/
def eurusd_5m_shift (symbol timeframe : String) (dt : Int) : Int :=
  if symbol = "eurusd" ∧ timeframe = "5m" then dt + 5 * 3600 else dt

/-- The per-row timestamp adjustment applied identically in
`fetch_latest_yf_candle` (src/update_fronttest.py lines 100-105) and
`fetch_full_yf_history` (lines 186-192): daily bars first go through
`adjust_daily_timestamp`, then `(eurusd, 5m)` is additionally shifted forward
by `timedelta(hours=5)`. -/
def adjust_fetched_timestamp (symbol timeframe : String) (dt : Int) : Int :=
  eurusd_5m_shift symbol timeframe
    (if timeframe = "1d" then adjust_daily_timestamp symbol dt else dt)

/-! ## Claim C6: candle colour classification -/

/-- C6: `candle_color` is a pure total function of (open, close): it returns
"green" exactly when close > open, "red" exactly when close < open, "doji"
exactly when they are equal, and no input produces any other value. -/
theorem compute_candle_color_total_spec (o c : ℚ) :
    (compute_candle_color o c = "green" ↔ c > o)
    ∧ (compute_candle_color o c = "red" ↔ c < o)
    ∧ (compute_candle_color o c = "doji" ↔ c = o)
    ∧ (compute_candle_color o c = "green" ∨ compute_candle_color o c = "red"
        ∨ compute_candle_color o c = "doji") := by
  unfold compute_candle_color
  rcases lt_trichotomy c o with h | h | h
  · rw [if_neg (by exact fun hgt => absurd h (not_lt.2 hgt.le)), if_pos h]
    refine ⟨⟨fun hs => absurd hs (by decide), fun hgt => absurd h (not_lt.2 hgt.le)⟩,
      ⟨fun _ => h, fun _ => rfl⟩,
      ⟨fun hs => absurd hs (by decide), fun he => absurd he (ne_of_lt h)⟩, ?_⟩
    exact Or.inr (Or.inl rfl)
  · rw [if_neg (by rw [h]; exact lt_irrefl o), if_neg (by rw [h]; exact lt_irrefl o)]
    refine ⟨⟨fun hs => absurd hs (by decide), fun hgt => absurd h (ne_of_gt hgt)⟩,
      ⟨fun hs => absurd hs (by decide), fun hlt => absurd h (ne_of_lt hlt)⟩,
      ⟨fun _ => h, fun _ => rfl⟩, Or.inr (Or.inr rfl)⟩
  · rw [if_pos h]
    refine ⟨⟨fun _ => h, fun _ => rfl⟩,
      ⟨fun hs => absurd hs (by decide), fun hlt => absurd hlt (not_lt.2 h.le)⟩,
      ⟨fun hs => absurd hs (by decide), fun he => absurd he.symm (ne_of_lt h)⟩,
      Or.inl rfl⟩

/-! ## Claim C10: daily alignment is idempotent -/

/-- C10: applying `adjust_daily_timestamp` twice yields the same result as
applying it once, for every symbol and every instant: the output's time of day
(14:30:00 UTC for spy, 00:00:00 UTC otherwise) and calendar day are fixed
points of the function. -/
theorem adjust_daily_timestamp_idempotent (symbol : String) (t : Int) :
    adjust_daily_timestamp symbol (adjust_daily_timestamp symbol t)
      = adjust_daily_timestamp symbol t := by
  unfold adjust_daily_timestamp dateMidnightUTC
  split_ifs <;> omega

/-! ## Claim C5: timestamp alignment during normalization -/

theorem adjust_fetched_1d_spy (t : Int) :
    adjust_fetched_timestamp "spy" "1d" t = t - t % 86400 + (14 * 3600 + 30 * 60) := rfl

theorem adjust_fetched_1d_other (symbol : String) (t : Int) (h : symbol ≠ "spy") :
    adjust_fetched_timestamp symbol "1d" t = t - t % 86400 := by
  unfold adjust_fetched_timestamp eurusd_5m_shift
  rw [if_pos rfl, if_neg (by rintro ⟨-, h5⟩; exact absurd h5 (by decide))]
  unfold adjust_daily_timestamp dateMidnightUTC
  rw [if_neg h]

/-- C5: for the daily timeframe, `spy` is re-anchored to 14:30:00 UTC
(time of day 52200 s) and every other symbol to 00:00:00 UTC, on the same UTC
calendar day (the day index `· / 86400` is unchanged); `(eurusd, 5m)` is
shifted forward by exactly 5 hours; every other (symbol, timeframe)
combination passes through unchanged (UTC conversion being the identity on
absolute instants). -/
theorem adjust_fetched_timestamp_alignment_spec :
    (∀ t : Int, adjust_fetched_timestamp "spy" "1d" t % 86400 = 52200
        ∧ adjust_fetched_timestamp "spy" "1d" t / 86400 = t / 86400)
    ∧ (∀ (symbol : String) (t : Int), symbol ≠ "spy" →
        adjust_fetched_timestamp symbol "1d" t % 86400 = 0
        ∧ adjust_fetched_timestamp symbol "1d" t / 86400 = t / 86400)
    ∧ (∀ t : Int, adjust_fetched_timestamp "eurusd" "5m" t = t + 5 * 3600)
    ∧ (∀ (symbol timeframe : String) (t : Int), timeframe ≠ "1d" →
        ¬(symbol = "eurusd" ∧ timeframe = "5m") →
        adjust_fetched_timestamp symbol timeframe t = t) := by
  refine ⟨fun t => ?_, fun symbol t h => ?_, fun t => rfl,
    fun symbol timeframe t h1 h2 => ?_⟩
  · rw [adjust_fetched_1d_spy]
    constructor <;> omega
  · rw [adjust_fetched_1d_other symbol t h]
    constructor <;> omega
  · unfold adjust_fetched_timestamp eurusd_5m_shift
    rw [if_neg h1, if_neg h2]

/-! ## Provider rows and normalized candles -/

/-- One raw row of a yfinance history frame, already indexed by a UTC instant
(the source's `tz_localize`/`tz_convert` step, identity on instants).
`Volume = none` models a NaN volume cell (`row.isna().Volume`). -/
structure RawRow where
  timestamp : Int
  Open : ℚ
  High : ℚ
  Low : ℚ
  Close : ℚ
  Volume : Option Int
deriving Repr, DecidableEq

/-- The canonical candle record built by `fetch_full_yf_history`
(src/update_fronttest.py lines 201-209) and `fetch_public_1m_data`
(lines 281-289). -/
structure Candle where
  timestamp : Int
  «open» : ℚ
  high : ℚ
  low : ℚ
  close : ℚ
  volume : Int
  candle_color : String
deriving Repr, DecidableEq

/-- The body of the row loop of `fetch_full_yf_history`
(src/update_fronttest.py lines 186-209): adjust the timestamp, substitute 0
for an unavailable volume, and recompute `candle_color` from this row's own
open and close. -/
def normalize_yf_row (symbol timeframe : String) (r : RawRow) : Candle :=
  { timestamp := adjust_fetched_timestamp symbol timeframe r.timestamp
    «open» := r.Open
    high := r.High
    low := r.Low
    close := r.Close
    volume := r.Volume.getD 0
    candle_color := compute_candle_color r.Open r.Close }

/-- Source function `fetch_full_yf_history` (src/update_fronttest.py lines 161-210), with the
provider round trip as an explicit input: a raised exception (`.error`) or an
empty frame yields `[]`; otherwise every row is normalized. -/
def fetch_full_yf_history (symbol timeframe : String)
    (resp : Except Unit (List RawRow)) : List Candle :=
  match resp with
  | .error _ => []
  | .ok hist => hist.map (normalize_yf_row symbol timeframe)

/-- The record returned by `fetch_latest_yf_candle`
(src/update_fronttest.py lines 107-114): the newest provider candle, with no
`candle_color` field. -/
structure YfLatest where
  timestamp : Int
  «open» : ℚ
  high : ℚ
  low : ℚ
  close : ℚ
  volume : Int
deriving Repr, DecidableEq

/-- Source function `fetch_latest_yf_candle` (src/update_fronttest.py lines 69-114): `none` on
a raised provider exception (caught at lines 83-86) or an empty frame (line
88-89); otherwise the frame's last row, its timestamp adjusted exactly as in
the history fetch. -/
def fetch_latest_yf_candle (symbol timeframe : String)
    (resp : Except Unit (List RawRow)) : Option YfLatest :=
  match resp with
  | .error _ => none
  | .ok hist =>
    match hist.getLast? with
    | none => none
    | some r =>
      some { timestamp := adjust_fetched_timestamp symbol timeframe r.timestamp
             «open» := r.Open
             high := r.High
             low := r.Low
             close := r.Close
             volume := r.Volume.getD 0 }

/-! ## Staleness checker (src/update_fronttest.py lines 136-156) -/

/-- Source function `is_up_to_date` (src/update_fronttest.py lines 136-156), with its two
external round trips (the provider response and the stored
`MAX(timestamp)` read by `get_fronttest_latest_ts`) as explicit inputs.
Returns the pair `(db_ts_str, up_to_date)`; the display string for an
existing stored timestamp is modelled as `toString`. -/
def is_up_to_date (symbol timeframe : String) (resp : Except Unit (List RawRow))
    (db_ts : Option Int) : String × Bool :=
  match fetch_latest_yf_candle symbol timeframe resp with
  | none => ("NO YF DATA", false)
  | some yf_candle =>
    match db_ts with
    | none => ("NO FRONTTEST DATA", false)
    | some db =>
      let diff_sec := |yf_candle.timestamp - db|
      let tolerance_sec : Int := 90
      (toString db, decide (diff_sec ≤ tolerance_sec))

/-! ## Claim C2: 90-second staleness tolerance, inclusive boundary -/

/-- C2: when both a provider latest candle and a stored latest timestamp
exist, the staleness checker reports "up to date" iff the absolute difference
of the two timestamps is at most 90 seconds; a difference of exactly 90 s is
up to date and 91 s is stale. -/
theorem is_up_to_date_tolerance_spec :
    (∀ (symbol timeframe : String) (resp : Except Unit (List RawRow))
        (yf : YfLatest) (db : Int),
        fetch_latest_yf_candle symbol timeframe resp = some yf →
        ((is_up_to_date symbol timeframe resp (some db)).2 = true ↔
          |yf.timestamp - db| ≤ 90))
    ∧ (is_up_to_date "es" "1m" (.ok [⟨90, 1, 1, 1, 1, some 0⟩]) (some 0)).2 = true
    ∧ (is_up_to_date "es" "1m" (.ok [⟨91, 1, 1, 1, 1, some 0⟩]) (some 0)).2 = false := by
  refine ⟨fun symbol timeframe resp yf db h => ?_, by decide, by decide⟩
  unfold is_up_to_date
  rw [h]
  exact decide_eq_true_iff

/-! ## Claim C8: the staleness checker fails gracefully -/

/-- C8: a provider fetch that raises or yields no candle makes the pair "not
up to date" with the no-provider-data report, and no exception escapes (the
embedding is a total function of the fetch outcome); an absent stored latest
timestamp makes the pair "not up to date" with the no-stored-data report. -/
theorem is_up_to_date_graceful_failure_spec :
    (∀ (symbol timeframe : String) (db_ts : Option Int),
        is_up_to_date symbol timeframe (.error ()) db_ts = ("NO YF DATA", false))
    ∧ (∀ (symbol timeframe : String) (db_ts : Option Int),
        is_up_to_date symbol timeframe (.ok []) db_ts = ("NO YF DATA", false))
    ∧ (∀ (symbol timeframe : String) (resp : Except Unit (List RawRow))
        (yf : YfLatest),
        fetch_latest_yf_candle symbol timeframe resp = some yf →
        is_up_to_date symbol timeframe resp none = ("NO FRONTTEST DATA", false)) := by
  refine ⟨fun s tf db => rfl, fun s tf db => rfl, fun s tf resp yf h => ?_⟩
  unfold is_up_to_date
  rw [h]

/-! ## Store model and upsert writer (src/update_fronttest.py lines 215-250) -/

/-- The non-key columns of one row of a `<schema>.<symbol>_<timeframe>`
table (spec §6: columns symbol, timestamp, open, high, low, close, volume,
candle_color, key (symbol, timestamp)). -/
structure StoredRow where
  «open» : ℚ
  high : ℚ
  low : ℚ
  close : ℚ
  volume : Int
  candle_color : String
deriving Repr, DecidableEq

/-- The state of one target table: with primary/unique key
`(symbol, timestamp)` — the upsert's conflict target — a table is a map from
keys to non-key columns. -/
def TableState : Type := String × Int → Option StoredRow

/-- The row the upsert writer stores for candle `c`: the VALUES tuple of
`UPSERT_SQL` minus the key columns. -/
def storedOfCandle (c : Candle) : StoredRow :=
  ⟨c.«open», c.high, c.low, c.close, c.volume, c.candle_color⟩

/-- One execution of `UPSERT_SQL` (src/update_fronttest.py lines 215-227):
insert on a fresh `(symbol, timestamp)` key, otherwise `DO UPDATE SET` every
non-key column to the `EXCLUDED` (new) values. -/
def upsert_sql (symbol : String) (c : Candle) (t : TableState) : TableState :=
  fun k => if k = (symbol, c.timestamp) then some (storedOfCandle c) else t k

/-- Source function `upsert_rows` (src/update_fronttest.py lines 229-250): run the upsert for
each candle in order and count the rows written.  `timeframe` only selects
the target table, whose state is the explicit argument. -/
def upsert_rows (symbol timeframe : String) (candles : List Candle)
    (t : TableState) : TableState × Nat :=
  candles.foldl (fun acc c => (upsert_sql symbol c acc.1, acc.2 + 1)) (t, 0)

/-- The last candle of the list writing key `k`, as a stored row: `none` when
no candle in the list has that key. -/
def lastWrite (symbol : String) (k : String × Int) : List Candle → Option StoredRow
  | [] => none
  | c :: L =>
      (lastWrite symbol k L).elim
        (if k = (symbol, c.timestamp) then some (storedOfCandle c) else none) some

theorem upsert_rows_fst_aux (symbol : String) (L : List Candle) (t : TableState)
    (n : Nat) :
    (L.foldl (fun acc c => (upsert_sql symbol c acc.1, acc.2 + 1)) (t, n)).1
      = L.foldl (fun st c => upsert_sql symbol c st) t := by
  induction L generalizing t n with
  | nil => rfl
  | cons c L ih => exact ih (upsert_sql symbol c t) (n + 1)

/-- The table state after `upsert_rows` is the batch fold of single upserts. -/
theorem upsert_rows_fst (symbol timeframe : String) (L : List Candle)
    (t : TableState) :
    (upsert_rows symbol timeframe L t).1
      = L.foldl (fun st c => upsert_sql symbol c st) t :=
  upsert_rows_fst_aux symbol L t 0

/-- Lookup after a batch of upserts: the last write for the key wins, and a
key no candle writes keeps its previous row. -/
theorem upsert_fold_lookup (symbol : String) (k : String × Int)
    (L : List Candle) (t : TableState) :
    (L.foldl (fun st c => upsert_sql symbol c st) t) k
      = (lastWrite symbol k L).elim (t k) some := by
  induction L generalizing t with
  | nil => rfl
  | cons c L ih =>
      rw [List.foldl_cons, ih]
      show _ = ((lastWrite symbol k L).elim
        (if k = (symbol, c.timestamp) then some (storedOfCandle c) else none) some).elim
          (t k) some
      cases lastWrite symbol k L with
      | some v => rfl
      | none =>
          show (upsert_sql symbol c t) k = _
          unfold upsert_sql
          split_ifs <;> rfl

/-! ## Claim C1: upsert is idempotent and last-write-wins per key -/

/-- C1: for every (symbol, timeframe) and every candle sequence, writing the
sequence twice through the upsert writer leaves the same table state as
writing it once; and upserting candle A then candle B with the same
(symbol, timestamp) key — in two calls or in one batch — stores exactly B's
open/high/low/close/volume/candle_color. -/
theorem upsert_idempotent_and_last_write_wins :
    (∀ (symbol timeframe : String) (candles : List Candle) (t : TableState),
        (upsert_rows symbol timeframe candles
            (upsert_rows symbol timeframe candles t).1).1
          = (upsert_rows symbol timeframe candles t).1)
    ∧ (∀ (symbol timeframe : String) (A B : Candle) (t : TableState),
        A.timestamp = B.timestamp →
        (upsert_rows symbol timeframe [B]
            (upsert_rows symbol timeframe [A] t).1).1 (symbol, B.timestamp)
          = some (storedOfCandle B))
    ∧ (∀ (symbol timeframe : String) (A B : Candle) (t : TableState),
        A.timestamp = B.timestamp →
        (upsert_rows symbol timeframe [A, B] t).1 (symbol, B.timestamp)
          = some (storedOfCandle B)) := by
  refine ⟨fun symbol timeframe L t => ?_, fun symbol timeframe A B t _ => ?_,
    fun symbol timeframe A B t _ => ?_⟩
  · funext k
    rw [upsert_rows_fst, upsert_rows_fst, upsert_fold_lookup, upsert_fold_lookup]
    cases lastWrite symbol k L with
    | some v => rfl
    | none => rfl
  · rw [upsert_rows_fst, upsert_fold_lookup]
    show (lastWrite symbol (symbol, B.timestamp) [B]).elim _ some = _
    unfold lastWrite
    rw [if_pos rfl]
    rfl
  · rw [upsert_rows_fst, upsert_fold_lookup]
    have h1 : lastWrite symbol (symbol, B.timestamp) [B] = some (storedOfCandle B) := by
      show ((lastWrite symbol (symbol, B.timestamp) []).elim
        (if (symbol, B.timestamp) = (symbol, B.timestamp)
          then some (storedOfCandle B) else none) some) = _
      rw [if_pos rfl]
      rfl
    have h2 : lastWrite symbol (symbol, B.timestamp) [A, B] = some (storedOfCandle B) := by
      show ((lastWrite symbol (symbol, B.timestamp) [B]).elim _ some) = _
      rw [h1]
      rfl
    rw [h2]
    rfl

/-! ## Secondary store and the 1m gap fill (src/update_fronttest.py lines 255-290) -/

/-- One row of the secondary store table `public.<symbol>_1m` (spec §6: same
column shape, no derived colour consumed). -/
structure SecRow where
  timestamp : Int
  «open» : ℚ
  high : ℚ
  low : ℚ
  close : ℚ
  volume : Int
deriving Repr, DecidableEq

/-- Source function `fetch_public_1m_data` (src/update_fronttest.py lines 255-290): SELECT the
rows of `public.<symbol>_1m` whose timestamp lies in the inclusive range
`[start_ts, end_ts]`, ordered by timestamp ascending, each normalized with
`candle_color` recomputed from its own open and close.  The secondary table's
contents are the explicit input `store` (a table is an unordered row set; the
query's ORDER BY fixes the output order). -/
def fetch_public_1m_data (store : List SecRow) (start_ts end_ts : Int) :
    List Candle :=
  let rows := (store.filter fun r =>
      decide (start_ts ≤ r.timestamp) && decide (r.timestamp ≤ end_ts)).mergeSort
      (fun a b => decide (a.timestamp ≤ b.timestamp))
  rows.map fun r =>
    { timestamp := r.timestamp
      «open» := r.«open»
      high := r.high
      low := r.low
      close := r.close
      volume := r.volume
      candle_color := compute_candle_color r.«open» r.close }

/-- Source function `fetch_fronttest_candle` (src/update_fronttest.py lines 295-320): the
stored row at a given timestamp.  The source selects `WHERE timestamp = :ts
LIMIT 1` inside the single-symbol table, i.e. the row keyed
`(symbol, ts)`. -/
def fetch_fronttest_candle (table : TableState) (symbol : String) (ts : Int) :
    Option StoredRow :=
  table (symbol, ts)

/-! ## Per-pair update flow (src/update_fronttest.py `main`, lines 356-436) -/

/-- Sorting `yf_rows.sort(key=lambda x: x["timestamp"])` (line 371): Python's stable
sort, embedded as a stable merge sort by timestamp. -/
def sort_candles (L : List Candle) : List Candle :=
  L.mergeSort (fun a b => decide (a.timestamp ≤ b.timestamp))

/-- Expression `yf_rows[0]["timestamp"]` (line 372); the list is non-empty whenever this
is consulted (the empty fetch is skipped at line 368-370). -/
def headTimestamp : List Candle → Int
  | [] => 0
  | c :: _ => c.timestamp

/-- The boundary reconciliation outcome (lines 382-385): the per-symbol
threshold and the two `is_close_enough` comparisons.  Only open and close are
compared. -/
structure BoundaryCheck where
  threshold : ℚ
  open_ok : Bool
  close_ok : Bool
deriving Repr, DecidableEq

/-- MATCH iff both comparisons pass (`if open_ok and close_ok`, line 385). -/
def BoundaryCheck.matched (b : BoundaryCheck) : Bool := b.open_ok && b.close_ok

/-- The boundary mismatch check of `main` (lines 376-403): inspect only the
fetched candle whose timestamp equals the stored latest timestamp (the first
such element, `next(...)`), load the stored candle at that key, and compare
open and close within the per-symbol threshold.  `none` when either candle is
absent (no conflict check performed).  The subsequent mismatch resolution
uses the hard-coded `choice = "2"` (line 392), so the keep-stored branch
(lines 394-401) is unreachable and the fetched rows are never mutated. -/
def check_boundary (symbol : String) (yf_rows : List Candle) (db_latest_ts : Int)
    (table : TableState) : Option BoundaryCheck :=
  match yf_rows.find? fun r => decide (r.timestamp = db_latest_ts) with
  | none => none
  | some match_yf =>
    match fetch_fronttest_candle table symbol db_latest_ts with
    | none => none
    | some db_candle =>
      let threshold := candleMatchThreshold symbol
      some { threshold := threshold
             open_ok := is_close_enough db_candle.«open» match_yf.«open» threshold
             close_ok := is_close_enough db_candle.close match_yf.close threshold }

/-- The gap-fill step of `main` (lines 410-428), entered after a deadzone is
detected: only the 1m timeframe attempts a fill (`ans_pub` is the hard-coded
"yes", line 412).  Returns the computed gap range (when the 1m branch runs),
the list of backfill upsert batches issued (at most one), and the table state
after them. -/
def gap_fill (symbol tf : String) (oldest_yf_dt db_latest_ts : Int)
    (public_store : List SecRow) (table : TableState) :
    Option (Int × Int) × List (List Candle) × TableState :=
  if oldest_yf_dt > db_latest_ts ∧ tf = "1m" then
    let gap_start := db_latest_ts + 1
    let gap_end := oldest_yf_dt - 1
    if gap_end ≤ gap_start then (some (gap_start, gap_end), [], table)
    else
      let public_data := fetch_public_1m_data public_store gap_start gap_end
      if public_data.isEmpty then (some (gap_start, gap_end), [], table)
      else (some (gap_start, gap_end), [public_data],
            (upsert_rows symbol tf public_data table).1)
  else (none, [], table)

/-- The observable outcome of processing one out-of-date (symbol, timeframe)
pair in `main` (lines 365-436). -/
structure PairResult where
  /-- The pair was skipped because the provider fetch yielded nothing
  (lines 368-370). -/
  skipped : Bool
  /-- The deadzone warning was reported (lines 405-408). -/
  deadzone : Bool
  /-- The boundary mismatch check, when it ran (lines 376-394). -/
  boundary : Option BoundaryCheck
  /-- Pair `(gap_start, gap_end)` when the 1m fill branch computed them
  (lines 415-416). -/
  gap_range : Option (Int × Int)
  /-- The candle batches passed to `upsert_rows`, in call order. -/
  upsert_calls : List (List Candle)
  /-- The table state at the end of the pair's processing. -/
  final : TableState

/-- Processing of one out-of-date pair in `main` (lines 365-436), with the
external reads (provider response, stored `MAX(timestamp)`, secondary store
contents) as explicit inputs: fetch and sort the full history, skip on an
empty fetch, run the boundary check and the deadzone/gap-fill step when a
stored latest timestamp exists, then unconditionally upsert the full fetched
series. -/
def process_pair (symbol tf : String) (yf_resp : Except Unit (List RawRow))
    (db_latest_ts : Option Int) (public_store : List SecRow)
    (table : TableState) : PairResult :=
  let yf_rows0 := fetch_full_yf_history symbol tf yf_resp
  if yf_rows0.isEmpty then
    { skipped := true, deadzone := false, boundary := none, gap_range := none,
      upsert_calls := [], final := table }
  else
    let yf_rows := sort_candles yf_rows0
    let oldest_yf_dt := headTimestamp yf_rows
    match db_latest_ts with
    | none =>
      -- line 431: table empty, no deadzone check needed
      { skipped := false, deadzone := false, boundary := none, gap_range := none,
        upsert_calls := [yf_rows], final := (upsert_rows symbol tf yf_rows table).1 }
    | some db_ts =>
      let boundary := check_boundary symbol yf_rows db_ts table
      let gf := gap_fill symbol tf oldest_yf_dt db_ts public_store table
      { skipped := false
        deadzone := decide (oldest_yf_dt > db_ts)
        boundary := boundary
        gap_range := gf.1
        upsert_calls := gf.2.1 ++ [yf_rows]
        final := (upsert_rows symbol tf yf_rows gf.2.2).1 }

/-- The fetched series as `main` sees it after line 371: normalized and
sorted ascending by timestamp. -/
def yf_sorted (symbol tf : String) (resp : Except Unit (List RawRow)) :
    List Candle :=
  sort_candles (fetch_full_yf_history symbol tf resp)

/-! ### Reduction lemmas for `process_pair` and its stages -/

theorem process_pair_empty (symbol tf : String) (resp : Except Unit (List RawRow))
    (db : Option Int) (store : List SecRow) (table : TableState)
    (h : fetch_full_yf_history symbol tf resp = []) :
    process_pair symbol tf resp db store table
      = { skipped := true, deadzone := false, boundary := none, gap_range := none,
          upsert_calls := [], final := table } := by
  unfold process_pair
  rw [if_pos (by rw [h]; rfl)]

theorem process_pair_none (symbol tf : String) (resp : Except Unit (List RawRow))
    (store : List SecRow) (table : TableState)
    (h : fetch_full_yf_history symbol tf resp ≠ []) :
    process_pair symbol tf resp none store table
      = { skipped := false, deadzone := false, boundary := none, gap_range := none,
          upsert_calls := [yf_sorted symbol tf resp],
          final := (upsert_rows symbol tf (yf_sorted symbol tf resp) table).1 } := by
  unfold process_pair
  rw [if_neg (by simpa [List.isEmpty_iff] using h)]
  rfl

theorem process_pair_some (symbol tf : String) (resp : Except Unit (List RawRow))
    (db_ts : Int) (store : List SecRow) (table : TableState)
    (h : fetch_full_yf_history symbol tf resp ≠ []) :
    process_pair symbol tf resp (some db_ts) store table
      = { skipped := false
          deadzone := decide (headTimestamp (yf_sorted symbol tf resp) > db_ts)
          boundary := check_boundary symbol (yf_sorted symbol tf resp) db_ts table
          gap_range := (gap_fill symbol tf (headTimestamp (yf_sorted symbol tf resp))
              db_ts store table).1
          upsert_calls := (gap_fill symbol tf (headTimestamp (yf_sorted symbol tf resp))
              db_ts store table).2.1 ++ [yf_sorted symbol tf resp]
          final := (upsert_rows symbol tf (yf_sorted symbol tf resp)
              (gap_fill symbol tf (headTimestamp (yf_sorted symbol tf resp))
                db_ts store table).2.2).1 } := by
  unfold process_pair
  rw [if_neg (by simpa [List.isEmpty_iff] using h)]
  rfl

theorem gap_fill_not_run (symbol tf : String) (o d : Int) (store : List SecRow)
    (table : TableState) (h : ¬(o > d ∧ tf = "1m")) :
    gap_fill symbol tf o d store table = (none, [], table) := by
  unfold gap_fill
  rw [if_neg h]

theorem gap_fill_empty_range (symbol : String) (o d : Int) (store : List SecRow)
    (table : TableState) (ho : o > d) (hr : o - 1 ≤ d + 1) :
    gap_fill symbol "1m" o d store table = (some (d + 1, o - 1), [], table) := by
  unfold gap_fill
  rw [if_pos ⟨ho, rfl⟩, if_pos hr]

theorem gap_fill_no_data (symbol : String) (o d : Int) (store : List SecRow)
    (table : TableState) (ho : o > d) (hr : ¬(o - 1 ≤ d + 1))
    (hp : fetch_public_1m_data store (d + 1) (o - 1) = []) :
    gap_fill symbol "1m" o d store table = (some (d + 1, o - 1), [], table) := by
  unfold gap_fill
  rw [if_pos ⟨ho, rfl⟩, if_neg hr, if_pos (by rw [hp]; rfl)]

theorem gap_fill_fills (symbol : String) (o d : Int) (store : List SecRow)
    (table : TableState) (ho : o > d) (hr : ¬(o - 1 ≤ d + 1))
    (hp : fetch_public_1m_data store (d + 1) (o - 1) ≠ []) :
    gap_fill symbol "1m" o d store table
      = (some (d + 1, o - 1), [fetch_public_1m_data store (d + 1) (o - 1)],
         (upsert_rows symbol "1m" (fetch_public_1m_data store (d + 1) (o - 1))
           table).1) := by
  unfold gap_fill
  rw [if_pos ⟨ho, rfl⟩, if_neg hr, if_neg (by simpa [List.isEmpty_iff] using hp)]

theorem check_boundary_no_match (symbol : String) (yf_rows : List Candle)
    (db_ts : Int) (table : TableState)
    (h : yf_rows.find? (fun r => decide (r.timestamp = db_ts)) = none) :
    check_boundary symbol yf_rows db_ts table = none := by
  unfold check_boundary
  rw [h]

theorem check_boundary_some (symbol : String) (yf_rows : List Candle)
    (db_ts : Int) (table : TableState) (myf : Candle) (dbc : StoredRow)
    (hf : yf_rows.find? (fun r => decide (r.timestamp = db_ts)) = some myf)
    (hd : table (symbol, db_ts) = some dbc) :
    check_boundary symbol yf_rows db_ts table
      = some { threshold := candleMatchThreshold symbol
               open_ok := is_close_enough dbc.«open» myf.«open»
                 (candleMatchThreshold symbol)
               close_ok := is_close_enough dbc.close myf.close
                 (candleMatchThreshold symbol) } := by
  unfold check_boundary fetch_fronttest_candle
  rw [hf, hd]

/-- Every row returned by the secondary-store gap query lies in the inclusive
requested range and carries a colour recomputed from its own open/close. -/
theorem fetch_public_1m_data_mem (store : List SecRow) (a b : Int) (c : Candle)
    (hc : c ∈ fetch_public_1m_data store a b) :
    a ≤ c.timestamp ∧ c.timestamp ≤ b
      ∧ c.candle_color = compute_candle_color c.«open» c.close := by
  unfold fetch_public_1m_data at hc
  obtain ⟨r, hr, rfl⟩ := List.mem_map.mp hc
  rw [List.mem_mergeSort, List.mem_filter] at hr
  obtain ⟨-, hp⟩ := hr
  rw [Bool.and_eq_true, decide_eq_true_iff, decide_eq_true_iff] at hp
  exact ⟨hp.1, hp.2, rfl⟩

/-! ## Claim C3: deadzone detection -/

/-- C3: with a stored latest timestamp present, the deadzone warning is
reported iff the fetched series' oldest timestamp is strictly later than the
stored latest timestamp; when the two are equal nothing is reported; when the
stored latest timestamp is absent no deadzone check is performed at all (no
report, no gap computation). -/
theorem deadzone_reported_iff_spec :
    (∀ (symbol tf : String) (resp : Except Unit (List RawRow)) (db_ts : Int)
        (store : List SecRow) (table : TableState),
        fetch_full_yf_history symbol tf resp ≠ [] →
        ((process_pair symbol tf resp (some db_ts) store table).deadzone = true ↔
          headTimestamp (yf_sorted symbol tf resp) > db_ts))
    ∧ (∀ (symbol tf : String) (resp : Except Unit (List RawRow)) (db_ts : Int)
        (store : List SecRow) (table : TableState),
        fetch_full_yf_history symbol tf resp ≠ [] →
        headTimestamp (yf_sorted symbol tf resp) = db_ts →
        (process_pair symbol tf resp (some db_ts) store table).deadzone = false)
    ∧ (∀ (symbol tf : String) (resp : Except Unit (List RawRow))
        (store : List SecRow) (table : TableState),
        (process_pair symbol tf resp none store table).deadzone = false
        ∧ (process_pair symbol tf resp none store table).gap_range = none) := by
  refine ⟨fun symbol tf resp db_ts store table h => ?_,
    fun symbol tf resp db_ts store table h heq => ?_,
    fun symbol tf resp store table => ?_⟩
  · rw [process_pair_some symbol tf resp db_ts store table h]
    exact decide_eq_true_iff
  · rw [process_pair_some symbol tf resp db_ts store table h]
    show decide _ = false
    rw [heq]
    exact decide_eq_false (lt_irrefl db_ts)
  · by_cases he : fetch_full_yf_history symbol tf resp = []
    · rw [process_pair_empty symbol tf resp none store table he]
      exact ⟨rfl, rfl⟩
    · rw [process_pair_none symbol tf resp store table he]
      exact ⟨rfl, rfl⟩

/-! ## Claim C4: gap backfill — 1m only, computed bounds, ordering -/

/-- C4: gap backfill runs only for the 1m timeframe (coarser timeframes get
no gap computation and only the full-series upsert); for 1m with a deadzone
the bounds are `gap_start = stored_latest + 1 s` and
`gap_end = fetched_oldest - 1 s`; when `gap_end ≤ gap_start` the fill is a
no-op; otherwise the secondary store's rows in the inclusive range
`[gap_start, gap_end]` — colour recomputed from each row's own open/close —
are upserted in a batch issued before the full fetched series' upsert. -/
theorem gap_backfill_spec :
    (∀ (symbol tf : String) (resp : Except Unit (List RawRow)) (db_ts : Int)
        (store : List SecRow) (table : TableState),
        fetch_full_yf_history symbol tf resp ≠ [] → tf ≠ "1m" →
        (process_pair symbol tf resp (some db_ts) store table).gap_range = none
        ∧ (process_pair symbol tf resp (some db_ts) store table).upsert_calls
            = [yf_sorted symbol tf resp])
    ∧ (∀ (symbol : String) (resp : Except Unit (List RawRow)) (db_ts : Int)
        (store : List SecRow) (table : TableState),
        fetch_full_yf_history symbol "1m" resp ≠ [] →
        headTimestamp (yf_sorted symbol "1m" resp) > db_ts →
        (process_pair symbol "1m" resp (some db_ts) store table).gap_range
          = some (db_ts + 1, headTimestamp (yf_sorted symbol "1m" resp) - 1))
    ∧ (∀ (symbol : String) (resp : Except Unit (List RawRow)) (db_ts : Int)
        (store : List SecRow) (table : TableState),
        fetch_full_yf_history symbol "1m" resp ≠ [] →
        headTimestamp (yf_sorted symbol "1m" resp) > db_ts →
        headTimestamp (yf_sorted symbol "1m" resp) - 1 ≤ db_ts + 1 →
        (process_pair symbol "1m" resp (some db_ts) store table).upsert_calls
            = [yf_sorted symbol "1m" resp]
        ∧ (process_pair symbol "1m" resp (some db_ts) store table).final
            = (upsert_rows symbol "1m" (yf_sorted symbol "1m" resp) table).1)
    ∧ (∀ (symbol : String) (resp : Except Unit (List RawRow)) (db_ts : Int)
        (store : List SecRow) (table : TableState),
        fetch_full_yf_history symbol "1m" resp ≠ [] →
        headTimestamp (yf_sorted symbol "1m" resp) > db_ts →
        ¬(headTimestamp (yf_sorted symbol "1m" resp) - 1 ≤ db_ts + 1) →
        fetch_public_1m_data store (db_ts + 1)
            (headTimestamp (yf_sorted symbol "1m" resp) - 1) ≠ [] →
        (process_pair symbol "1m" resp (some db_ts) store table).upsert_calls
            = [fetch_public_1m_data store (db_ts + 1)
                (headTimestamp (yf_sorted symbol "1m" resp) - 1),
               yf_sorted symbol "1m" resp]
        ∧ (process_pair symbol "1m" resp (some db_ts) store table).final
            = (upsert_rows symbol "1m" (yf_sorted symbol "1m" resp)
                (upsert_rows symbol "1m"
                  (fetch_public_1m_data store (db_ts + 1)
                    (headTimestamp (yf_sorted symbol "1m" resp) - 1)) table).1).1)
    ∧ (∀ (store : List SecRow) (a b : Int) (c : Candle),
        c ∈ fetch_public_1m_data store a b →
        a ≤ c.timestamp ∧ c.timestamp ≤ b
          ∧ c.candle_color = compute_candle_color c.«open» c.close) := by
  refine ⟨fun symbol tf resp db_ts store table h htf => ?_,
    fun symbol resp db_ts store table h ho => ?_,
    fun symbol resp db_ts store table h ho hr => ?_,
    fun symbol resp db_ts store table h ho hr hp => ?_,
    fetch_public_1m_data_mem⟩
  · rw [process_pair_some symbol tf resp db_ts store table h,
      gap_fill_not_run symbol tf _ db_ts store table (fun hc => htf hc.2)]
    exact ⟨rfl, rfl⟩
  · rw [process_pair_some symbol "1m" resp db_ts store table h]
    by_cases hr : headTimestamp (yf_sorted symbol "1m" resp) - 1 ≤ db_ts + 1
    · rw [gap_fill_empty_range symbol _ db_ts store table ho hr]
    · by_cases hp : fetch_public_1m_data store (db_ts + 1)
          (headTimestamp (yf_sorted symbol "1m" resp) - 1) = []
      · rw [gap_fill_no_data symbol _ db_ts store table ho hr hp]
      · rw [gap_fill_fills symbol _ db_ts store table ho hr hp]
  · rw [process_pair_some symbol "1m" resp db_ts store table h,
      gap_fill_empty_range symbol _ db_ts store table ho hr]
    exact ⟨rfl, rfl⟩
  · rw [process_pair_some symbol "1m" resp db_ts store table h,
      gap_fill_fills symbol _ db_ts store table ho hr hp]
    exact ⟨rfl, rfl⟩

/-! ## Claim C7: boundary reconciliation MATCH condition -/

/-- C7: with a fetched candle at the stored latest timestamp and a stored row
at that key, the boundary check compares only open and close, and MATCH holds
iff both |stored.open - fetched.open| and |stored.close - fetched.close| are
at most the symbol's threshold; the thresholds are es 0.25, eurusd 0.0005,
spy 0.1, default 0.01 for unlisted symbols; the candle inspected is exactly
the one whose timestamp equals the stored latest timestamp, and with no such
candle no check is performed. -/
theorem boundary_match_spec :
    (candleMatchThreshold "es" = 1/4 ∧ candleMatchThreshold "eurusd" = 1/2000
      ∧ candleMatchThreshold "spy" = 1/10
      ∧ ∀ symbol : String, symbol ≠ "es" → symbol ≠ "eurusd" → symbol ≠ "spy" →
          candleMatchThreshold symbol = 1/100)
    ∧ (∀ (symbol : String) (yf_rows : List Candle) (db_ts : Int)
        (table : TableState) (myf : Candle) (dbc : StoredRow),
        yf_rows.find? (fun r => decide (r.timestamp = db_ts)) = some myf →
        table (symbol, db_ts) = some dbc →
        myf.timestamp = db_ts
        ∧ check_boundary symbol yf_rows db_ts table
            = some { threshold := candleMatchThreshold symbol
                     open_ok := is_close_enough dbc.«open» myf.«open»
                       (candleMatchThreshold symbol)
                     close_ok := is_close_enough dbc.close myf.close
                       (candleMatchThreshold symbol) }
        ∧ ((BoundaryCheck.matched
              { threshold := candleMatchThreshold symbol
                open_ok := is_close_enough dbc.«open» myf.«open»
                  (candleMatchThreshold symbol)
                close_ok := is_close_enough dbc.close myf.close
                  (candleMatchThreshold symbol) }) = true ↔
            |dbc.«open» - myf.«open»| ≤ candleMatchThreshold symbol
            ∧ |dbc.close - myf.close| ≤ candleMatchThreshold symbol))
    ∧ (∀ (symbol : String) (yf_rows : List Candle) (db_ts : Int)
        (table : TableState),
        yf_rows.find? (fun r => decide (r.timestamp = db_ts)) = none →
        check_boundary symbol yf_rows db_ts table = none)
    ∧ (∀ (symbol tf : String) (resp : Except Unit (List RawRow)) (db_ts : Int)
        (store : List SecRow) (table : TableState),
        fetch_full_yf_history symbol tf resp ≠ [] →
        (process_pair symbol tf resp (some db_ts) store table).boundary
          = check_boundary symbol (yf_sorted symbol tf resp) db_ts table) := by
  refine ⟨⟨rfl, rfl, rfl, fun symbol h1 h2 h3 => ?_⟩,
    fun symbol yf_rows db_ts table myf dbc hf hd => ?_,
    check_boundary_no_match,
    fun symbol tf resp db_ts store table h => ?_⟩
  · have e1 : (symbol == "es") = false := beq_eq_false_iff_ne.mpr h1
    have e2 : (symbol == "eurusd") = false := beq_eq_false_iff_ne.mpr h2
    have e3 : (symbol == "spy") = false := beq_eq_false_iff_ne.mpr h3
    simp [candleMatchThreshold, CANDLE_MATCH_THRESHOLDS, List.lookup, e1, e2, e3]
  · have hp := List.find?_some hf
    refine ⟨of_decide_eq_true hp,
      check_boundary_some symbol yf_rows db_ts table myf dbc hf hd, ?_⟩
    simp [BoundaryCheck.matched, is_close_enough, Bool.and_eq_true,
      decide_eq_true_iff]
  · rw [process_pair_some symbol tf resp db_ts store table h]

/-! ## Bulk loader (src/import_from_json.py) -/

/-- One row object of a bulk-load document (spec §6): `timestamp` is the
instant parsed from the ISO-8601 string by `parse_timestamp`
(src/import_from_json.py lines 121-128). -/
structure JsonRow where
  symbol : String
  timestamp : Int
  «open» : ℚ
  high : ℚ
  low : ℚ
  close : ℚ
  volume : Int
  candle_color : String
deriving Repr, DecidableEq

/-- Source function `insert_rows` (src/import_from_json.py lines 71-118): upsert each document
row into the named table with the same `(symbol, timestamp)` conflict policy
as the update script's writer.  Every column — `candle_color` included — is
taken verbatim from the document row (`color = r["candle_color"]`, line 105);
nothing is recomputed. -/
def insert_rows (table : TableState) (rows : List JsonRow) : TableState × Nat :=
  rows.foldl (fun acc r =>
    (fun k => if k = (r.symbol, r.timestamp) then
        some ⟨r.«open», r.high, r.low, r.close, r.volume, r.candle_color⟩
      else acc.1 k,
     acc.2 + 1)) (table, 0)

/-! ## Claim C9: candle colour provenance -/

/-- C9 counterexample: the bulk loader writes the document's `candle_color`
verbatim — a document row with open 1 < close 2 but colour "red" is stored
with colour "red", although recomputation from its own open/close gives
"green".  So not every record written to the store has its colour recomputed. -/
theorem insert_rows_stores_color_verbatim :
    (insert_rows (fun _ => none) [⟨"es", 0, 1, 2, 1, 2, 5, "red"⟩]).1 ("es", 0)
        = some ⟨1, 2, 1, 2, 5, "red"⟩
    ∧ compute_candle_color 1 2 = "green"
    ∧ ("red" : String) ≠ "green" := by
  refine ⟨?_, ?_, by decide⟩
  · show (if (("es", 0) : String × Int) = ("es", 0) then
        some (⟨1, 2, 1, 2, 5, "red"⟩ : StoredRow) else none) = _
    rw [if_pos rfl]
  · show (if (2 : ℚ) > 1 then "green" else _) = "green"
    rw [if_pos (by norm_num)]

/-- C9 amended: the update script's two write paths (provider history rows and
secondary-store backfill rows) always recompute `candle_color` from the
record's own open and close; the bulk loader, by contrast, stores the
document's `candle_color` verbatim, independently of the row's own
open/close. -/
theorem candle_color_recomputed_on_update_paths :
    (∀ (symbol tf : String) (resp : Except Unit (List RawRow)) (c : Candle),
        c ∈ fetch_full_yf_history symbol tf resp →
        c.candle_color = compute_candle_color c.«open» c.close)
    ∧ (∀ (store : List SecRow) (a b : Int) (c : Candle),
        c ∈ fetch_public_1m_data store a b →
        c.candle_color = compute_candle_color c.«open» c.close)
    ∧ (∀ (table : TableState) (r : JsonRow),
        (insert_rows table [r]).1 (r.symbol, r.timestamp)
          = some ⟨r.«open», r.high, r.low, r.close, r.volume, r.candle_color⟩) := by
  refine ⟨fun symbol tf resp c hc => ?_, fun store a b c hc => ?_,
    fun table r => ?_⟩
  · cases resp with
    | error e => exact absurd hc (List.not_mem_nil c)
    | ok hist =>
        obtain ⟨r, -, rfl⟩ := List.mem_map.mp hc
        rfl
  · unfold fetch_public_1m_data at hc
    obtain ⟨r, -, rfl⟩ := List.mem_map.mp hc
    rfl
  · show (if (r.symbol, r.timestamp) = (r.symbol, r.timestamp) then _ else _) = _
    rw [if_pos rfl]

/-! ## Concrete runs

Closed evaluations of the embedded operations at explicit inputs, showing the
guarded cases of the theorems above are inhabited. -/

-- Writing candle A then candle B with the same (symbol, timestamp) key in one
-- batch stores exactly B's fields, and both rows are counted.
theorem upsert_last_write_wins_run :
    (upsert_rows "es" "1m" [⟨0, 1, 2, 3, 4, 5, "green"⟩, ⟨0, 9, 8, 7, 6, 5, "red"⟩]
        (fun _ => none)).1 ("es", 0) = some ⟨9, 8, 7, 6, 5, "red"⟩
    ∧ (upsert_rows "es" "1m" [⟨0, 1, 2, 3, 4, 5, "green"⟩, ⟨0, 9, 8, 7, 6, 5, "red"⟩]
        (fun _ => none)).2 = 2 := by
  exact ⟨by decide, by decide⟩

-- A fetched oldest timestamp of 100 against a stored latest of 0 reports a
-- deadzone; an equal pair reports none; an empty table skips the check.
unseal List.merge List.mergeSort in
theorem deadzone_reported_run :
    (process_pair "es" "1m" (.ok [⟨100, 1, 1, 1, 1, some 0⟩]) (some 0) []
        (fun _ => none)).deadzone = true
    ∧ (process_pair "es" "1m" (.ok [⟨0, 1, 1, 1, 1, some 0⟩]) (some 0) []
        (fun _ => none)).deadzone = false
    ∧ (process_pair "es" "1m" (.ok [⟨100, 1, 1, 1, 1, some 0⟩]) none []
        (fun _ => none)).deadzone = false := by
  exact ⟨by decide, by decide, by decide⟩

-- The spec §8 backfill scenario shape: stored latest 0, fetched oldest 300 on
-- a 1m pair, three secondary rows inside (0, 300): the gap range is the
-- inclusive [1, 299], and the three recoloured rows are upserted in one batch
-- before the fetched series' batch.
unseal List.merge List.mergeSort in
theorem gap_backfill_run :
    (process_pair "eurusd" "1m" (.ok [⟨300, 1, 1, 1, 1, some 2⟩]) (some 0)
        [⟨1, 1, 2, 1, 2, 10⟩, ⟨150, 2, 2, 1, 1, 5⟩, ⟨299, 3, 3, 3, 3, 0⟩]
        (fun _ => none)).gap_range = some (1, 299)
    ∧ (process_pair "eurusd" "1m" (.ok [⟨300, 1, 1, 1, 1, some 2⟩]) (some 0)
        [⟨1, 1, 2, 1, 2, 10⟩, ⟨150, 2, 2, 1, 1, 5⟩, ⟨299, 3, 3, 3, 3, 0⟩]
        (fun _ => none)).upsert_calls
      = [[⟨1, 1, 2, 1, 2, 10, "green"⟩, ⟨150, 2, 2, 1, 1, 5, "red"⟩,
          ⟨299, 3, 3, 3, 3, 0, "doji"⟩],
         [⟨300, 1, 1, 1, 1, 2, "doji"⟩]] := by
  exact ⟨by decide, by decide⟩

-- The spec §8 boundary scenario on (es, threshold 0.25): a fetched open of
-- 5000.10 against a stored open of 5000.00 is a MATCH; 5000.50 is a MISMATCH.
theorem boundary_match_run :
    ((check_boundary "es" [⟨0, 5000 + 1/10, 5001, 4999, 5000, 5, "doji"⟩] 0
        (fun k => if k = ("es", 0) then
          some ⟨5000, 5001, 4999, 5000, 5, "doji"⟩ else none)).map
      BoundaryCheck.matched) = some true
    ∧ ((check_boundary "es" [⟨0, 5000 + 1/2, 5001, 4999, 5000, 5, "doji"⟩] 0
        (fun k => if k = ("es", 0) then
          some ⟨5000, 5001, 4999, 5000, 5, "doji"⟩ else none)).map
      BoundaryCheck.matched) = some false := by
  constructor
  · rw [check_boundary_some "es" [⟨0, 5000 + 1/10, 5001, 4999, 5000, 5, "doji"⟩] 0 _
      ⟨0, 5000 + 1/10, 5001, 4999, 5000, 5, "doji"⟩
      ⟨5000, 5001, 4999, 5000, 5, "doji"⟩ rfl rfl]
    refine congrArg some ?_
    show (is_close_enough 5000 (5000 + 1/10) (candleMatchThreshold "es")
        && is_close_enough 5000 5000 (candleMatchThreshold "es")) = true
    have hthr : candleMatchThreshold "es" = 1/4 := rfl
    rw [hthr]
    unfold is_close_enough
    rw [decide_eq_true (by rw [abs_sub_le_iff]; constructor <;> norm_num),
      decide_eq_true (by rw [abs_sub_le_iff]; constructor <;> norm_num)]
    rfl
  · rw [check_boundary_some "es" [⟨0, 5000 + 1/2, 5001, 4999, 5000, 5, "doji"⟩] 0 _
      ⟨0, 5000 + 1/2, 5001, 4999, 5000, 5, "doji"⟩
      ⟨5000, 5001, 4999, 5000, 5, "doji"⟩ rfl rfl]
    refine congrArg some ?_
    show (is_close_enough 5000 (5000 + 1/2) (candleMatchThreshold "es")
        && is_close_enough 5000 5000 (candleMatchThreshold "es")) = false
    have hthr : candleMatchThreshold "es" = 1/4 := rfl
    rw [hthr]
    unfold is_close_enough
    rw [decide_eq_false (by rw [abs_sub_le_iff]; push_neg; intro h; norm_num)]
    rfl

end Daygent
